import Mathlib

/-!
Verification of `simple_di` (`src/simple_di/__init__.py`) against its
natural-language specification.

The embedding models Python values that can flow through the library with the
inductive `PyVal`.  Object identity of `_SentinelClass` instances is modelled
by a numeric object id carried by the `vsent` constructor; the module-level
singleton `sentinel` is the instance with id 0.  Concrete providers appearing
as argument or default values are modelled by `vprov override provideVal`,
carrying the current `_override` attribute and the (pure) result of the
subclass's `_provide` strategy.
-/

deriving instance DecidableEq for Except

/-- Universe of Python values used by the library: `None`, integers,
instances of `_SentinelClass` (identified by an object id), and concrete
`Provider` objects (their `_override` attribute together with the value their
`_provide` strategy returns). -/
inductive PyVal : Type where
  | vnone : PyVal
  | vint : Int → PyVal
  | vsent : Nat → PyVal
  | vprov : PyVal → PyVal → PyVal
deriving DecidableEq, Repr

/-- The module-level singleton `sentinel = _SentinelClass()`
(src/simple_di/__init__.py line 36); `skip` and `not_passed` alias it. -/
def sentinel : PyVal := .vsent 0

/-- Python's `isinstance(v, _SentinelClass)` test used throughout the
library: true for every `_SentinelClass` instance, whatever its identity. -/
def PyVal.isSent : PyVal → Bool
  | .vsent _ => true
  | _ => false

/-- Python's `v is None` identity test (`None` is a singleton). -/
def PyVal.isNone : PyVal → Bool
  | .vnone => true
  | _ => false

/-- Python's `isinstance(v, Provider)` test. -/
def PyVal.isProv : PyVal → Bool
  | .vprov _ _ => true
  | _ => false

/-- `Provider.set` (lines 80-86): the provider state is its `_override`
attribute.  `if isinstance(value, _SentinelClass): return` then
`self._override = value`. -/
def Provider.set (ov value : PyVal) : PyVal :=
  if value.isSent then ov else value

/-- `Provider.get` (lines 101-107): `if not isinstance(self._override,
_SentinelClass): return self._override; return self._provide()`.  The
strategy `_provide` is abstract on the base class; it is passed here as
`provide`, with `none` modelling a strategy that raises
(`NotImplementedError`), so the result `none` means `get` raised. -/
def Provider.get (ov : PyVal) (provide : Option PyVal) : Option PyVal :=
  if !ov.isSent then some ov else provide

/-- `Provider.reset` (lines 109-113): `self._override = sentinel`. -/
def Provider.reset (_ov : PyVal) : PyVal := sentinel

/-- How the scoped body of a `with P.patch(...)` block terminates: normally,
or by raising an exception (identified by a numeric id). -/
inductive BodyExit : Type where
  | normal : BodyExit
  | raised : Nat → BodyExit
deriving DecidableEq, Repr

/-- `Provider.patch` (lines 88-99) run to completion around a scoped body.
The body receives the provider's `_override` state at the `yield` point and
returns the state it leaves behind together with how it exited.  Following
`@contextlib.contextmanager` semantics for a generator with no try/finally:
if `value` is a `_SentinelClass` instance the generator is `yield; return`,
so the body runs on the unchanged state and its outcome is the outcome of the
whole block; otherwise the current `_override` is saved, `value` installed,
and the body run — on normal completion the line after the `yield`
(`self._override = original`) restores the saved state, while an exception
thrown into the generator at the `yield` propagates immediately and the
restore line never executes. -/
def Provider.patchRun (ov value : PyVal) (body : PyVal → PyVal × BodyExit) :
    PyVal × BodyExit :=
  if value.isSent then body ov
  else
    let original := ov
    match body value with
    | (_, .normal) => (original, .normal)
    | (ov2, .raised e) => (ov2, .raised e)

/-!
Injection wrapper (`_inject`, lines 151-177) together with the pieces of
`inspect.Signature` binding that it relies on.  The model covers functions
whose parameters are all positional-or-keyword — the only kind appearing in
the specification — each with an optional literal default.
-/

/-- One parameter of a wrapped function: its name and its declared default
(`none` when the parameter has no default). -/
structure Param : Type where
  name : String
  default : Option PyVal
deriving DecidableEq, Repr

/-- A function signature as captured once at wrap time by
`inspect.signature(func)` (line 155). -/
def Sig : Type := List Param

/-- Argument filtering performed by the wrapper before binding
(lines 162-169): in default mode drop positional arguments that are
`_SentinelClass` instances; with `squeeze_none` drop those that are `None`. -/
def filterArgs (squeeze_none : Bool) (args : List PyVal) : List PyVal :=
  if !squeeze_none then args.filter (fun a => !a.isSent)
  else args.filter (fun a => !a.isNone)

/-- Keyword-argument filtering performed by the wrapper before binding
(lines 162-169), same two modes as `filterArgs`. -/
def filterKwargs (squeeze_none : Bool) (kwargs : List (String × PyVal)) :
    List (String × PyVal) :=
  if !squeeze_none then kwargs.filter (fun kv => !kv.2.isSent)
  else kwargs.filter (fun kv => !kv.2.isNone)

/-- Positional part of `Signature.bind_partial`: assign positional arguments
to parameters in order, an error when more positionals are supplied than
there are parameters.  The result lists every parameter in signature order
with its bound value, `none` meaning still unbound. -/
def bindPositional : Sig → List PyVal → Except String (List (String × Option PyVal))
  | ps, [] => .ok (ps.map fun p => (p.name, none))
  | [], _ :: _ => .error "too many positional arguments"
  | p :: ps, a :: rest => (bindPositional ps rest).map (fun b => (p.name, some a) :: b)

/-- Bind one keyword argument into a partial binding: error on an unknown
name and on a parameter that already received a positional value. -/
def assignKw : List (String × Option PyVal) → String → PyVal →
    Except String (List (String × Option PyVal))
  | [], _, _ => .error "unexpected keyword argument"
  | (n, ov) :: rest, k, v =>
    if n = k then
      match ov with
      | some _ => .error "multiple values for argument"
      | none => .ok ((n, some v) :: rest)
    else (assignKw rest k v).map (fun b => (n, ov) :: b)

/-- Keyword part of `Signature.bind_partial`: fold every keyword argument
into the partial binding. -/
def bindKw : List (String × Option PyVal) → List (String × PyVal) →
    Except String (List (String × Option PyVal))
  | bound, [] => .ok bound
  | bound, (k, v) :: rest =>
    match assignKw bound k v with
    | .ok b => bindKw b rest
    | .error e => .error e

/-- `Signature.bind_partial(*filtered_args, **filtered_kwargs)` (line 171)
for positional-or-keyword parameters. -/
def bindPartial (sig : Sig) (args : List PyVal) (kwargs : List (String × PyVal)) :
    Except String (List (String × Option PyVal)) :=
  match bindPositional sig args with
  | .ok b => bindKw b kwargs
  | .error e => .error e

/-- `BoundArguments.apply_defaults` (line 172): every still-unbound parameter
with a declared default becomes bound to that default; a parameter whose
default is a Provider object stays bound to that Provider object. -/
def applyDefaults (sig : Sig) (bound : List (String × Option PyVal)) :
    List (String × Option PyVal) :=
  List.zipWith (fun (p : Param) (b : String × Option PyVal) =>
    (b.1, match b.2 with
          | some v => some v
          | none => p.default)) sig bound

/-- Bound parameters situated after the first unbound one; they are passed by
keyword (`BoundArguments.kwargs`). -/
def collectKwargs : List (String × Option PyVal) → List (String × PyVal)
  | [] => []
  | (_, none) :: rest => collectKwargs rest
  | (n, some v) :: rest => (n, v) :: collectKwargs rest

/-- `BoundArguments.args` / `BoundArguments.kwargs` for positional-or-keyword
parameters: the longest bound prefix is passed positionally, bound parameters
after the first gap are passed by keyword. -/
def splitArgs : List (String × Option PyVal) → List PyVal × List (String × PyVal)
  | [] => ([], [])
  | (_, none) :: rest => ([], collectKwargs rest)
  | (_, some v) :: rest =>
    let p := splitArgs rest
    (v :: p.1, p.2)

/-- Resolution of one bound argument, `a.get() if isinstance(a, Provider)
else a`: a concrete Provider object resolves through `Provider.get`
(its override when set, its `_provide` result otherwise), anything else
passes through unchanged. -/
def resolveVal : PyVal → PyVal
  | .vprov ov pv => if ov.isSent then pv else ov
  | v => v

/-- `_inject_args` (lines 136-139). -/
def _inject_args (args : List PyVal) : List PyVal :=
  args.map resolveVal

/-- `_inject_kwargs` (lines 142-145). -/
def _inject_kwargs (kwargs : List (String × PyVal)) : List (String × PyVal) :=
  kwargs.map (fun kv => (kv.1, resolveVal kv.2))

/-- Unwrap a fully bound parameter list; an unbound parameter at this point
means the underlying call raises a missing-argument `TypeError`. -/
def finalize : List (String × Option PyVal) → Except String (List (String × PyVal))
  | [] => .ok []
  | (n, some v) :: rest => (finalize rest).map (fun l => (n, v) :: l)
  | (_, none) :: _ => .error "missing a required argument"

/-- The invocation `func(*args, **kwargs)` of the underlying function: Python
binds the supplied arguments against the signature, applies the function's
own declared defaults, and errors if a parameter is left without a value.
The observable result is the complete parameter-to-value assignment the
function body executes with. -/
def callFunc (sig : Sig) (args : List PyVal) (kwargs : List (String × PyVal)) :
    Except String (List (String × PyVal)) :=
  match bindPartial sig args kwargs with
  | .ok b => finalize (applyDefaults sig b)
  | .error e => .error e

/-- One call of the wrapper `_` created by `_inject` (lines 158-174): filter
the supplied arguments by mode, partially bind them against the cached
signature, apply the signature's defaults, then invoke the underlying
function on the bound arguments with every Provider instance replaced by its
`get()` result. -/
def wrappedCall (sig : Sig) (squeeze_none : Bool) (args : List PyVal)
    (kwargs : List (String × PyVal)) : Except String (List (String × PyVal)) :=
  match bindPartial sig (filterArgs squeeze_none args) (filterKwargs squeeze_none kwargs) with
  | .ok b =>
    let b2 := applyDefaults sig b
    let split := splitArgs b2
    callFunc sig (_inject_args split.1) (_inject_kwargs split.2)
  | .error e => .error e

/-- A Python callable as seen by `_inject`: either a plain function (no
`_is_injected` attribute) or a wrapper previously produced by `_inject`,
which carries the cached signature, the mode it was created with, and the
marker flag. -/
inductive Callable : Type where
  | raw : Sig → Callable
  | wrapped : Sig → Bool → Callable

/-- `getattr(func, "_is_injected", False)` (line 152): the marker flag, false
for a plain function that lacks the attribute. -/
def isInjectedFlag : Callable → Bool
  | .raw _ => false
  | .wrapped _ _ => true

/-- `_inject(func, squeeze_none)` (lines 151-177): return `func` unchanged
when its marker flag is set, otherwise build the wrapper (which carries the
flag). -/
def _inject (func : Callable) (squeeze_none : Bool) : Callable :=
  if isInjectedFlag func then func
  else
    match func with
    | .raw sig => .wrapped sig squeeze_none
    | .wrapped sig b => .wrapped sig b

/-- Calling a callable: a plain function binds its arguments directly (its
Provider-valued defaults are not resolved); a wrapper goes through
`wrappedCall`. -/
def callCallable (c : Callable) (args : List PyVal)
    (kwargs : List (String × PyVal)) : Except String (List (String × PyVal)) :=
  match c with
  | .raw sig => callFunc sig args kwargs
  | .wrapped sig b => wrappedCall sig b args kwargs

/-- The provider `Provider_A` of the specification's running example: its
override is unset (the module sentinel) and its `_provide` strategy returns
42. -/
def providerA : PyVal := .vprov sentinel (.vint 42)

/-- Signature of the running example `f(a = Provider_A, b = 2)`. -/
def fSig : Sig := [⟨"a", some providerA⟩, ⟨"b", some (.vint 2)⟩]

/-!
Container synchronization (`sync_container`, lines 209-221).  Provider
objects here live on a heap and are denoted by numeric references, so that
aliasing between a dataclass declaration's default Provider object and a live
instance's attribute is expressible and mutation is observable.  A Provider's
full exportable state (`__getstate__` / `__setstate__`, lines 115-120, which
copy every `STATE_FIELDS` entry) is modelled as one opaque number.
-/

/-- Values reachable by `sync_container`'s walk: `None`, a Provider object
(by heap reference), a dataclass instance (its class's declared fields with
their default objects, and its own attribute dictionary), or anything else —
which also stands for `dataclasses.MISSING` when a field has no default. -/
inductive DVal : Type where
  | dnone : DVal
  | dprov : Nat → DVal
  | dinst : List (String × DVal) → List (String × DVal) → DVal
  | dother : Nat → DVal

/-- The `target is None` test of line 216. -/
def DVal.isN : DVal → Bool
  | .dnone => true
  | _ => false

/-- Attribute lookup in an attribute dictionary, `None` when absent. -/
def lookupD : List (String × DVal) → String → DVal
  | [], _ => .dnone
  | (k, v) :: rest, name => if k = name then v else lookupD rest name

/-- `getattr(from_, field.name, None)` (line 215): attribute lookup on a
dataclass instance, `None` for a missing attribute or a non-instance. -/
def getattrD : DVal → String → DVal
  | .dinst _ attrs, name => lookupD attrs name
  | _, _ => .dnone

/-- Heap of Provider objects: reference to opaque exported state. -/
def Heap : Type := Nat → Nat

/-- `sync_container(from_, to_)` (lines 209-221) on the Provider heap.  For
every declared field of `to_`'s type: `src` is the field's type-level default
object and `target` is `from_`'s attribute of that name; skip when `target`
is `None`; when `src` is a Provider, `src.__setstate__(target.__getstate__())`
copies the state of `from_`'s attribute Provider into the type-level default
object; when `src` is a dataclass, recurse as `sync_container(src, target)`.
The `fuel` argument only bounds the nesting depth of the recursion (the
Python code recurses without bound); every result below holds for any
sufficient fuel.  A `target` that is not a Provider where `src` is one makes
the Python attribute accesses fail, modelled as an error, as is calling
`dataclasses.fields` on a non-dataclass. -/
def sync_container : Nat → DVal → DVal → Heap → Except String Heap
  | 0, _, _, _ => .error "recursion limit"
  | fuel + 1, from_, to_, h =>
    match to_ with
    | .dinst fields _ =>
      fields.foldl (fun acc p =>
        match acc with
        | .error e => .error e
        | .ok hh =>
          let target := getattrD from_ p.1
          if target.isN then .ok hh
          else
            match p.2 with
            | .dprov r =>
              match target with
              | .dprov r2 => .ok (fun x => if x = r then hh r2 else hh x)
              | _ => .error "state access failed"
            | .dinst f a => sync_container fuel (.dinst f a) target hh
            | _ => .ok hh) (.ok h)
    | _ => .error "fields of a non-dataclass"

/-!
State-field accretion (`ProviderMeta.__new__`, lines 39-60) and Provider
state export/import (`__getstate__` / `__setstate__`, lines 115-120).  A
Provider class is described by the `state_fields` keyword given at class
creation, the `STATE_FIELDS` tuple declared in the class body, and the list
of base classes.  The metaclass accumulates a Python `set` of field names —
iteration order of the resulting tuple is arbitrary — modelled as a
`Finset String`.
-/

/-- A Provider class for the metaclass model: the `state_fields` keyword
argument, the class body's own `STATE_FIELDS` declaration, and the direct
base classes. -/
inductive PHier : Type where
  | mk : Finset String → Finset String → List PHier → PHier

mutual
/-- The `STATE_FIELDS` attribute computed by `ProviderMeta.__new__`
(lines 48-56): start from the `state_fields` keyword, union in each base's
`STATE_FIELDS`, then union in the class body's declaration. -/
def STATE_FIELDS : PHier → Finset String
  | .mk kw attrsSF bases => (kw ∪ basesFields bases) ∪ attrsSF

/-- The loop over `bases` of lines 50-54, accumulating every direct base's
`STATE_FIELDS`. -/
def basesFields : List PHier → Finset String
  | [] => ∅
  | b :: rest => STATE_FIELDS b ∪ basesFields rest
end

/-- Direct or transitive base class. -/
inductive IsAncestor : PHier → PHier → Prop where
  | base {a : PHier} {kw attrsSF : Finset String} {bases : List PHier} :
      a ∈ bases → IsAncestor a (.mk kw attrsSF bases)
  | step {a b c : PHier} : IsAncestor a b → IsAncestor b c → IsAncestor a c

/-- `Provider.__getstate__` (lines 115-116) for an instance of class `cls`
whose attribute dictionary is `attrs`: the mapping with exactly the class's
`STATE_FIELDS` as keys, each mapped to the instance attribute. -/
def __getstate__ (cls : PHier) (attrs : String → PyVal) : String → Option PyVal :=
  fun f => if f ∈ STATE_FIELDS cls then some (attrs f) else none

/-- `Provider.__setstate__` (lines 118-120): set every `STATE_FIELDS`
attribute from the mapping; a mapping that lacks one of the keys makes the
Python code raise `KeyError`, modelled as `none`. -/
def __setstate__ (cls : PHier) (attrs : String → PyVal)
    (state : String → Option PyVal) : Option (String → PyVal) :=
  if h : ∀ f ∈ STATE_FIELDS cls, (state f).isSome then
    some (fun f =>
      if hf : f ∈ STATE_FIELDS cls then (state f).get (h f hf) else attrs f)
  else none

/-- `Provider.get` (lines 101-107) for the metaclass model, where an
instance is an attribute dictionary and the class's `_provide` strategy may
read the instance's attributes. -/
def getAttrs (attrs : String → PyVal) (provide : (String → PyVal) → PyVal) : PyVal :=
  if !(attrs "_override").isSent then attrs "_override" else provide attrs

/-- The class `Provider` itself (line 66-72): created by the metaclass with
no `state_fields` keyword, a body declaring `STATE_FIELDS = ("_override",)`,
and no Provider base. -/
def clsProvider : PHier := .mk ∅ {"_override"} []

/-- A concrete subtype `A(Provider, state_fields=("_fieldA",))`. -/
def clsA : PHier := .mk {"_fieldA"} ∅ [clsProvider]

/-- A concrete subtype `B(A, state_fields=("_fieldB",))` adding one field. -/
def clsB : PHier := .mk {"_fieldB"} ∅ [clsA]

/-- The `_provide` strategy of the concrete subtype `B`: it computes its
value from the instance's `_fieldB` attribute. -/
def provideB : (String → PyVal) → PyVal := fun attrs => attrs "_fieldB"

/-- The attribute dictionary produced by importing an exported state of a
`clsB` instance `orig` into a fresh instance `fresh`: state fields come from
`orig`, everything else stays from `fresh`. -/
def importedAttrs (orig fresh : String → PyVal) : String → PyVal :=
  fun f => if f ∈ STATE_FIELDS clsB then orig f else fresh f

/-- A dataclass with one Provider-valued field `a` whose type-level default
is the Provider object at heap reference 0. -/
def cexFields : List (String × DVal) := [("a", .dprov 0)]

/-- A live instance of that dataclass whose own attribute `a` is the distinct
Provider object at reference 1, used as `from_`. -/
def cexFrom : DVal := .dinst cexFields [("a", .dprov 1)]

/-- A live instance of that dataclass whose own attribute `a` is the distinct
Provider object at reference 2, used as `to_`. -/
def cexTo : DVal := .dinst cexFields [("a", .dprov 2)]

/-- The heap assigning Provider object `i` the exported state `i`, so every
object starts with a distinct recognizable state. -/
def cexHeap : Heap := fun n => n

/-- A nested declaration-default instance: its class declares field `a` with
default Provider 0, and its own attribute `a` is Provider 3. -/
def nestedDefault : DVal := .dinst [("a", .dprov 0)] [("a", .dprov 3)]

/-- An outer dataclass instance used as `from_`, whose attribute `c` is a
nested instance with attribute `a` bound to Provider 4. -/
def nestedFrom : DVal :=
  .dinst [("c", nestedDefault)] [("c", .dinst [("a", .dprov 0)] [("a", .dprov 4)])]

/-- An outer dataclass instance used as `to_`, structurally parallel to
`nestedFrom`, with attribute `c` holding Provider 5 under `a`. -/
def nestedTo : DVal :=
  .dinst [("c", nestedDefault)] [("c", .dinst [("a", .dprov 0)] [("a", .dprov 5)])]

/-- A concrete original `clsB` instance: its override is set to 3 and its two
extra state fields hold 7 and 9. -/
def origW : String → PyVal :=
  fun f => if f = "_override" then .vint 3
           else if f = "_fieldA" then .vint 7
           else if f = "_fieldB" then .vint 9 else .vnone

/-- A fresh `clsB` instance as produced by `__init__`: override unset, the
extra fields zeroed. -/
def freshW : String → PyVal :=
  fun f => if f = "_override" then sentinel else .vint 0

/-! Helper lemmas. -/

/-- Every direct base's field set is contained in the accumulated bases
union. -/
theorem mem_basesFields {b : PHier} : ∀ {l : List PHier}, b ∈ l →
    STATE_FIELDS b ⊆ basesFields l := by
  intro l hl
  induction l with
  | nil => cases hl
  | cons x rest ih =>
    rcases List.mem_cons.mp hl with h | h
    · subst h
      simp only [basesFields]
      exact Finset.subset_union_left
    · simp only [basesFields]
      exact (ih h).trans Finset.subset_union_right

/-- State-field accretion is monotone along the ancestor relation. -/
theorem ancestor_state_fields_subset {a c : PHier} (h : IsAncestor a c) :
    STATE_FIELDS a ⊆ STATE_FIELDS c := by
  induction h with
  | base hm =>
    refine (mem_basesFields hm).trans ?_
    simp only [STATE_FIELDS]
    exact Finset.subset_union_right.trans Finset.subset_union_left
  | step _ _ ih1 ih2 => exact ih1.trans ih2

/-! Claim theorems. -/

/-- C7: for every Provider P and every non-sentinel value v, after `P.set(v)`
`P.get()` returns v, whatever the `_provide` strategy; and `P.set(sentinel)`
is a no-op leaving the override state unchanged. -/
theorem C7_set_then_get (ov v : PyVal) (provide : Option PyVal) :
    (v.isSent = false → Provider.get (Provider.set ov v) provide = some v)
    ∧ Provider.set ov sentinel = ov := by
  constructor
  · intro h
    simp [Provider.set, Provider.get, h]
  · simp [Provider.set, sentinel, PyVal.isSent]

/-- Witness for C7 at the concrete input v = 5 on a provider whose override
is unset. -/
theorem C7_set_then_get_witness :
    Provider.get (Provider.set sentinel (.vint 5)) none = some (.vint 5)
    ∧ Provider.set sentinel sentinel = sentinel :=
  ⟨(C7_set_then_get sentinel (.vint 5) none).1 (by decide),
   (C7_set_then_get sentinel (.vint 5) none).2⟩

/-- C8: `P.patch(sentinel)` is a pure pass-through: the scoped body runs on
the unchanged override state and its outcome is the outcome of the whole
block; with a body that leaves the provider alone, `get()` is identical
before, during, and after the scope. -/
theorem C8_patch_sentinel_noop (ov : PyVal) (body : PyVal → PyVal × BodyExit)
    (provide : Option PyVal) :
    Provider.patchRun ov sentinel body = body ov
    ∧ Provider.patchRun ov sentinel (fun o => (o, .normal)) = (ov, .normal)
    ∧ Provider.get (Provider.patchRun ov sentinel (fun o => (o, .normal))).1 provide
        = Provider.get ov provide := by
  refine ⟨?_, ?_, ?_⟩ <;> simp [Provider.patchRun, sentinel, PyVal.isSent]

/-- C1: the claim requires `patch` to restore the saved override on every
exit path, including an exception propagating out of the scoped body.  The
code has no try/finally around its `yield`, so on the exception path the
restore line never runs: starting from override 0, `patch(5)` around a body
that raises leaves the override at 5 after the scope, while a normally
terminating body is restored to 0. -/
theorem C1_patch_leaks_on_exception :
    Provider.patchRun (.vint 0) (.vint 5) (fun o => (o, .raised 7))
      = (.vint 5, .raised 7)
    ∧ Provider.patchRun (.vint 0) (.vint 5) (fun o => (o, .normal))
      = (.vint 0, .normal)
    ∧ Provider.get (.vint 5) none ≠ Provider.get (.vint 0) none := by decide

/-- C5 counterexample: the claim says only the one sentinel singleton object
is recognized as "not passed"; but `_SentinelClass()` instance number 1, a
distinct object from the singleton, is also recognized by `Provider.set` and
by the default-mode argument filter. -/
theorem C5_counterexample :
    PyVal.vsent 1 ≠ sentinel
    ∧ Provider.set (.vint 0) (.vsent 1) = .vint 0
    ∧ filterArgs false [.vsent 1] = [] := by decide

/-- C5 amended: the "not passed" test is class membership, not object
identity: `set`, `patch` and the default-mode filter treat a value as not
passed exactly when it is an instance of `_SentinelClass`, whichever
instance it is, and treat every non-instance as passed. -/
theorem C5_sentinel_by_class (ov v : PyVal) (body : PyVal → PyVal × BodyExit)
    (k : Nat) (args : List PyVal) :
    Provider.set ov (.vsent k) = ov
    ∧ Provider.patchRun ov (.vsent k) body = body ov
    ∧ (v.isSent = false → Provider.set ov v = v)
    ∧ (filterArgs false args).count (.vsent k) = 0
    ∧ (v.isSent = false → (filterArgs false args).count v = args.count v) := by
  refine ⟨?_, ?_, ?_, ?_, ?_⟩
  · simp [Provider.set, PyVal.isSent]
  · simp [Provider.patchRun, PyVal.isSent]
  · intro h; simp [Provider.set, h]
  · simp [filterArgs]
    rw [List.count_eq_zero]
    intro hmem
    have := (List.mem_filter.mp hmem).2
    simp [PyVal.isSent] at this
  · intro h
    simp [filterArgs]
    rw [List.count_filter]
    simp [h]

/-- Witness for C5 amended at a concrete non-sentinel value. -/
theorem C5_sentinel_by_class_witness :
    Provider.set (.vint 0) (.vint 9) = .vint 9
    ∧ (filterArgs false [.vint 9]).count (.vint 9) = [PyVal.vint 9].count (.vint 9) :=
  ⟨(C5_sentinel_by_class (.vint 0) (.vint 9) (fun o => (o, .normal)) 0 []).2.2.1 rfl,
   (C5_sentinel_by_class (.vint 0) (.vint 9) (fun o => (o, .normal)) 0 [.vint 9]).2.2.2.2 rfl⟩

/-- C2 counterexample: on a one-field container whose declared default is
Provider 0, with `from_`'s attribute being the distinct Provider 1 and
`to_`'s attribute the distinct Provider 2, starting from the heap where
object i has state i: the synchronized heap gives the declaration's default
object state 1 (read from `from_`'s live attribute — the declaration IS
mutated), and leaves `to_`'s own Provider at state 2.  The claim would
instead require the target's Provider to receive the declaration's prior
state 0 and the declaration to keep state 0. -/
theorem C2_counterexample :
    (sync_container 1 cexFrom cexTo cexHeap).map (fun h => (h 0, h 1, h 2))
      = .ok (1, 1, 2)
    ∧ ¬ ((sync_container 1 cexFrom cexTo cexHeap).map (fun h => (h 2, h 0))
          = .ok (cexHeap 0, cexHeap 0)) := by decide

/-- C2 amended: `sync_container(from_, to_)` walks the declared fields of
`to_`'s type and, for a Provider-valued field default, copies the exported
state of `from_`'s live attribute Provider into the declaration's type-level
default Provider object — the declaration is mutated, the live `to_`
instance's own Provider object is written only insofar as it aliases the
declaration default; for a nested dataclass default the recursion swaps the
roles again (second conjunct: with nesting, the inner write copies the
declaration-default's attribute state 3 into the nested class default 0). -/
theorem C2_sync_reads_from_writes_declaration :
    (∀ (h : Heap) (r r1 r2 : Nat) (name : String) (fuel : Nat),
      sync_container (fuel + 1)
          (.dinst [(name, .dprov r)] [(name, .dprov r1)])
          (.dinst [(name, .dprov r)] [(name, .dprov r2)]) h
        = .ok (fun x => if x = r then h r1 else h x))
    ∧ (sync_container 2 nestedFrom nestedTo cexHeap).map
        (fun h => (h 0, h 3, h 4, h 5)) = .ok (3, 3, 4, 5) := by
  constructor
  · intro h r r1 r2 name fuel
    simp [sync_container, getattrD, lookupD, DVal.isN]
  · decide

/-- C3: wrapping `f(a = Provider_A, b = 2)` in default mode: a call with no
arguments invokes f with a = Provider_A.get() = 42 and b = 2; a call with
a = 5 (by keyword or positionally) invokes f with a = 5 and b = 2; in
general every bound argument that is a Provider instance is replaced by its
`get()` result and every non-Provider argument passes through unchanged. -/
theorem C3_inject_default_mode :
    wrappedCall fSig false [] [] = .ok [("a", .vint 42), ("b", .vint 2)]
    ∧ wrappedCall fSig false [] [("a", .vint 5)] = .ok [("a", .vint 5), ("b", .vint 2)]
    ∧ wrappedCall fSig false [.vint 5] [] = .ok [("a", .vint 5), ("b", .vint 2)]
    ∧ (∀ ov pv : PyVal, Provider.get ov (some pv) = some (resolveVal (.vprov ov pv)))
    ∧ (∀ v : PyVal, v.isProv = false → resolveVal v = v)
    ∧ (∀ args : List PyVal, _inject_args args = args.map resolveVal)
    ∧ (∀ kwargs : List (String × PyVal),
        _inject_kwargs kwargs = kwargs.map (fun kv => (kv.1, resolveVal kv.2))) := by
  refine ⟨by decide, by decide, by decide, ?_, ?_, fun _ => rfl, fun _ => rfl⟩
  · intro ov pv
    by_cases h : ov.isSent
    · simp [Provider.get, resolveVal, h]
    · simp [Provider.get, resolveVal, h]
  · intro v hv
    cases v with
    | vnone => rfl
    | vint n => rfl
    | vsent k => rfl
    | vprov o p => simp [PyVal.isProv] at hv

/-- Witness for C3 at concrete inputs: a non-Provider value passes through
resolution unchanged, and the no-argument call resolves as claimed. -/
theorem C3_inject_default_mode_witness :
    resolveVal (.vint 3) = .vint 3
    ∧ wrappedCall fSig false [] [] = .ok [("a", .vint 42), ("b", .vint 2)] :=
  ⟨C3_inject_default_mode.2.2.2.2.1 (.vint 3) rfl, C3_inject_default_mode.1⟩

/-- C4: before binding, the wrapper filters by exactly one of two rules.  In
default mode an explicit None passes through literally and every
`_SentinelClass` instance is dropped (concrete calls on
`f(a = Provider_A, b = 2)`), while with squeeze_none a None argument is
dropped so the parameter falls back to its Provider default's `get()`;
counting elements, the default-mode filter removes exactly the sentinel
instances and the squeeze-none filter removes exactly the None values. -/
theorem C4_two_filter_modes :
    wrappedCall fSig false [] [("a", .vnone)] = .ok [("a", .vnone), ("b", .vint 2)]
    ∧ wrappedCall fSig true [] [("a", .vnone)] = .ok [("a", .vint 42), ("b", .vint 2)]
    ∧ wrappedCall fSig false [] [("a", .vsent 3)] = .ok [("a", .vint 42), ("b", .vint 2)]
    ∧ (∀ (args : List PyVal) (k : Nat),
        (filterArgs false args).count (.vsent k) = 0
        ∧ (filterArgs false args).count .vnone = args.count .vnone
        ∧ (filterArgs true args).count .vnone = 0
        ∧ (filterArgs true args).count (.vsent k) = args.count (.vsent k)) := by
  refine ⟨by decide, by decide, by decide, ?_⟩
  intro args k
  refine ⟨?_, ?_, ?_, ?_⟩
  · simp [filterArgs]
    rw [List.count_eq_zero]
    intro hmem
    have := (List.mem_filter.mp hmem).2
    simp [PyVal.isSent] at this
  · simp [filterArgs]
    rw [List.count_filter]
    simp [PyVal.isSent]
  · simp [filterArgs]
    rw [List.count_eq_zero]
    intro hmem
    have := (List.mem_filter.mp hmem).2
    simp [PyVal.isNone] at this
  · simp [filterArgs]
    rw [List.count_filter]
    simp [PyVal.isNone]

/-- C9: `_inject` is idempotent: on a callable whose `_is_injected` marker is
set it returns the same callable unchanged, so a doubly wrapped function is
the same callable as the singly wrapped one and behaves identically on every
call. -/
theorem C9_inject_idempotent (c : Callable) (b b2 : Bool) (args : List PyVal)
    (kwargs : List (String × PyVal)) :
    _inject (_inject c b) b2 = _inject c b
    ∧ callCallable (_inject (_inject c b) b2) args kwargs
        = callCallable (_inject c b) args kwargs := by
  cases c
  · exact ⟨rfl, rfl⟩
  · exact ⟨rfl, rfl⟩

/-- C10: a positional argument dropped by the filter shifts the later
positional arguments one parameter to the left: calling wrapped
`f(a = Provider_A, b = 2)` positionally as f(sentinel, x) in default mode,
or as f(None, x) with squeeze_none, binds x to parameter a (not b), and b
falls back to its default 2. -/
theorem C10_dropped_positional_shifts (x : PyVal) (hp : x.isProv = false) :
    (x.isSent = false →
      wrappedCall fSig false [.vsent 0, x] [] = .ok [("a", x), ("b", .vint 2)])
    ∧ (x.isNone = false →
      wrappedCall fSig true [.vnone, x] [] = .ok [("a", x), ("b", .vint 2)]) := by
  constructor
  · intro hs
    cases x with
    | vnone => rfl
    | vint n => rfl
    | vsent k => simp [PyVal.isSent] at hs
    | vprov o p => simp [PyVal.isProv] at hp
  · intro hn
    cases x with
    | vnone => simp [PyVal.isNone] at hn
    | vint n => rfl
    | vsent k => rfl
    | vprov o p => simp [PyVal.isProv] at hp

/-- Witness for C10 at x = 7. -/
theorem C10_dropped_positional_shifts_witness :
    wrappedCall fSig false [.vsent 0, .vint 7] [] = .ok [("a", .vint 7), ("b", .vint 2)]
    ∧ wrappedCall fSig true [.vnone, .vint 7] [] = .ok [("a", .vint 7), ("b", .vint 2)] :=
  ⟨(C10_dropped_positional_shifts (.vint 7) rfl).1 rfl,
   (C10_dropped_positional_shifts (.vint 7) rfl).2 rfl⟩

/-- C6: the `STATE_FIELDS` set computed at class creation contains every
ancestor's set (accretion is monotone, and union semantics make it
idempotent, order-irrelevant and diamond-safe); in particular for
`B(A(Provider))` where A adds `_fieldA` and B adds `_fieldB`, A's fields are
contained in B's, a B instance's exported state has a value for all of A's
fields and for `_fieldB`, and importing the exported mapping into a fresh B
instance reproduces identical `get()` results. -/
theorem C6_state_fields_accretion :
    (∀ a c : PHier, IsAncestor a c → STATE_FIELDS a ⊆ STATE_FIELDS c)
    ∧ STATE_FIELDS clsA ⊆ STATE_FIELDS clsB
    ∧ (∀ orig fresh : String → PyVal,
        (∀ f ∈ STATE_FIELDS clsA, (__getstate__ clsB orig f).isSome)
        ∧ (__getstate__ clsB orig "_fieldB").isSome
        ∧ __setstate__ clsB fresh (__getstate__ clsB orig)
            = some (importedAttrs orig fresh)
        ∧ getAttrs (importedAttrs orig fresh) provideB = getAttrs orig provideB) := by
  have hAB : STATE_FIELDS clsA ⊆ STATE_FIELDS clsB := by decide
  refine ⟨fun a c h => ancestor_state_fields_subset h, hAB, ?_⟩
  intro orig fresh
  have hov : "_override" ∈ STATE_FIELDS clsB := by decide
  have hfb : "_fieldB" ∈ STATE_FIELDS clsB := by decide
  refine ⟨?_, ?_, ?_, ?_⟩
  · intro f hf
    simp [__getstate__, hAB hf]
  · simp [__getstate__, hfb]
  · rw [__setstate__]
    rw [dif_pos]
    · congr 1
      funext f
      by_cases hf : f ∈ STATE_FIELDS clsB
      · simp [hf, __getstate__, importedAttrs]
      · simp [hf, importedAttrs]
    · intro f hf
      simp [__getstate__, hf]
  · simp [getAttrs, importedAttrs, provideB, hov, hfb]

/-- Witness for C6: the base Provider class is a transitive ancestor of B and
its fields are contained in B's, and the roundtrip holds at a concrete
original and a concrete fresh instance. -/
theorem C6_state_fields_accretion_witness :
    STATE_FIELDS clsProvider ⊆ STATE_FIELDS clsB
    ∧ (__getstate__ clsB origW "_override").isSome
    ∧ getAttrs (importedAttrs origW freshW) provideB = getAttrs origW provideB := by
  have h1 : IsAncestor clsProvider clsA := by
    show IsAncestor clsProvider (.mk {"_fieldA"} ∅ [clsProvider])
    exact .base (List.mem_singleton.mpr rfl)
  have h2 : IsAncestor clsA clsB := by
    show IsAncestor clsA (.mk {"_fieldB"} ∅ [clsA])
    exact .base (List.mem_singleton.mpr rfl)
  have anc : IsAncestor clsProvider clsB := .step h1 h2
  exact ⟨C6_state_fields_accretion.1 clsProvider clsB anc,
         (C6_state_fields_accretion.2.2 origW freshW).1 "_override" (by decide),
         (C6_state_fields_accretion.2.2 origW freshW).2.2.2⟩
